import Mathlib

/-!
Verification development for the sql_agent_langchain repository.

Part A embeds the SQL safety gate.  The module core/db/verify_sql.py is
imported by core/db/query_engine.py and exercised by tests/test_verify_sql.py,
but its source file is not present in the repository snapshot; the gate is
therefore modelled from the specification (section 4.4) and checked against
the behaviours the tests pin down.

Part B embeds the embedding store (core/db/embedder.py), the schema
introspector (core/db/introspector.py) and the CDC worker
(core/worker/listen_and_refresh.py).
-/

namespace SqlAgent

/-- Scanner state of the SQL tokenizer.  `normal` is top level code, `dash`
and `slash` hold a pending character that may open a comment, `lit` is the
inside of a single-quoted string literal, `lineC` a line comment, `blockC` a
block comment and `blockStar` a block comment after a star. -/
inductive ScanState where
  | normal
  | dash
  | slash
  | lit
  | lineC
  | blockC
  | blockStar
deriving DecidableEq

/-- One processed character: either a top-level character or a character
hidden inside a string literal or a comment. -/
inductive TChar where
  | top (c : Char)
  | hidden
deriving DecidableEq

/-- The single-quote character (code point 39). -/
def quoteChar : Char := Char.ofNat 39

/-- The newline character (code point 10). -/
def nlChar : Char := Char.ofNat 10

/-- Modelled from the spec: one transition of the tokenizer required by rule 1
of section 4.4 (tokenize the statement respecting string literals and
comments).  The concrete tokenizer of core/db/verify_sql.py is not in the
repository snapshot; this is a one-character-lookahead automaton recognising
single-quoted literals, `--` line comments and block comments. -/
def step : ScanState → Char → ScanState × List TChar
  | .normal, c =>
    if c = quoteChar then (.lit, [.hidden])
    else if c = '-' then (.dash, [])
    else if c = '/' then (.slash, [])
    else (.normal, [.top c])
  | .dash, c =>
    if c = '-' then (.lineC, [.hidden, .hidden])
    else if c = quoteChar then (.lit, [.top '-', .hidden])
    else if c = '/' then (.slash, [.top '-'])
    else (.normal, [.top '-', .top c])
  | .slash, c =>
    if c = '*' then (.blockC, [.hidden, .hidden])
    else if c = quoteChar then (.lit, [.top '/', .hidden])
    else if c = '-' then (.dash, [.top '/'])
    else if c = '/' then (.slash, [.top '/'])
    else (.normal, [.top '/', .top c])
  | .lit, c =>
    if c = quoteChar then (.normal, [.hidden]) else (.lit, [.hidden])
  | .lineC, c =>
    if c = nlChar then (.normal, [.top c]) else (.lineC, [.hidden])
  | .blockC, c =>
    if c = '*' then (.blockStar, [.hidden]) else (.blockC, [.hidden])
  | .blockStar, c =>
    if c = '/' then (.normal, [.hidden])
    else if c = '*' then (.blockStar, [.hidden])
    else (.blockC, [.hidden])

/-- Run the tokenizer over a character list from a given state, returning the
classified characters and the final state. -/
def scanCore : ScanState → List Char → List TChar × ScanState
  | σ, [] => ([], σ)
  | σ, c :: rest =>
    let p := step σ c
    let q := scanCore p.1 rest
    (p.2 ++ q.1, q.2)

/-- Release a pending character at the end of the input. -/
def flushT : ScanState → List TChar
  | .dash => [.top '-']
  | .slash => [.top '/']
  | _ => []

/-- Final tokenizer state after scanning a string from top level. -/
def scanFinal (s : String) : ScanState := (scanCore .normal s.data).2

/-- The classified characters of a string scanned from top level. -/
def topChars (s : String) : List TChar :=
  (scanCore .normal s.data).1 ++ flushT (scanCore .normal s.data).2

/-- A character that may be dropped from the end of a statement before the
row cap is appended: whitespace or a statement separator. -/
def strippable (c : Char) : Bool := c.isWhitespace || c == ';'

/-- Modelled from the spec: canonicalization, dropping trailing whitespace
and trailing semicolons so that a row cap can be appended to the statement
(section 2 lists validate/canonicalize as the gate responsibility). -/
def stripTrailer (s : String) : String :=
  String.mk ((s.data.reverse.dropWhile strippable).reverse)

/-- A classified character that separates words: top-level whitespace, a
top-level semicolon, or any hidden (literal or comment) character. -/
def sepT : TChar → Bool
  | .top c => c.isWhitespace || c == ';'
  | .hidden => true

/-- Split classified characters into upper-cased top-level words. -/
def wordsAux : List TChar → List Char → List String
  | [], acc => if acc.isEmpty then [] else [String.mk acc.reverse]
  | t :: rest, acc =>
    if sepT t then
      if acc.isEmpty then wordsAux rest [] else String.mk acc.reverse :: wordsAux rest []
    else
      match t with
      | .top c => wordsAux rest (c.toUpper :: acc)
      | .hidden => wordsAux rest acc

/-- The upper-cased top-level words of a scanned statement. -/
def wordsOf (ts : List TChar) : List String := wordsAux ts []

/-- Modelled from the spec: rule 2 of section 4.4.  After trailing
whitespace and semicolons are stripped, any remaining top-level semicolon is
followed by further material, so its presence means more than one statement. -/
def multiStatement (ts : List TChar) : Bool := ts.any (· == .top ';')

/-- The mutating verbs listed in section 4.4 rule 3. -/
def mutatingVerbs : List String :=
  ["INSERT", "UPDATE", "DELETE", "DROP", "ALTER", "TRUNCATE",
   "GRANT", "REVOKE", "CREATE", "MERGE"]

/-- Modelled from the spec: rule 3 of section 4.4.  The leading keyword must
not be a mutating verb, and when the statement is a common table expression
(leading WITH) no keyword in it may be a mutating verb. -/
def mutatingCheck : List String → Bool
  | [] => false
  | w :: rest =>
    mutatingVerbs.contains w ||
      (w == "WITH" && rest.any mutatingVerbs.contains)

/-- The error taxonomy of the gate: `mutating` models UnsafeSQLError,
`multi` models MultipleStatementsError, `costLimit` models
CostLimitExceededError. -/
inductive SqlError where
  | mutating
  | multi
  | costLimit
deriving DecidableEq

deriving instance DecidableEq for Except

/-- The default row cap appended by the gate.  It is placed on a line of its
own, so that a statement ending in a line comment cannot swallow the cap:
rule 4 of section 4.4 demands that re-verifying the gate output is a no-op,
which a cap appended on the same line would break. -/
def limitSuffix : String := String.mk (nlChar :: "LIMIT 1000".data)

/-- States from which the newline that opens the row cap returns the scanner
to top level: top-level code, a pending dash or slash, or a line comment.
Inside an unterminated string literal or block comment no appended text can
reach top level, and such input is not a complete SQL statement. -/
def canAppend : ScanState → Bool
  | .normal => true
  | .dash => true
  | .slash => true
  | .lineC => true
  | _ => false

/-- Modelled from the spec: core/db/verify_sql.py is not in the repository
snapshot, so `verify_sql` is built from the rules of section 4.4 in their
stated order: tokenize respecting literals and comments, reject multiple
statements (MultipleStatementsError), reject mutating leading keywords and
mutating keywords inside a CTE body (UnsafeSQLError), then append the
`LIMIT 1000` row cap on its own line when `auto_limit` is set and no
top-level LIMIT is present, and otherwise return the input unchanged.  No
cap is appended when the scan ends inside an unterminated string literal or
block comment, where appended text could never be top level (such input is
not a complete statement); the gate then returns the input unchanged, which
keeps re-verification a no-op as rule 4 requires.  The cost guard (rule 5)
needs a live connection and is outside this model. -/
def verify_sql (sql : String) (autoLimit : Bool) : Except SqlError String :=
  let core := stripTrailer sql
  let top := topChars core
  if multiStatement top then .error .multi
  else if mutatingCheck (wordsOf top) then .error .mutating
  else if autoLimit && !((wordsOf top).any (· == "LIMIT")) && canAppend (scanFinal core) then
    .ok (core ++ limitSuffix)
  else .ok sql

/-- Embeds LoggingSQLDatabase.run of core/db/query_engine.py: the raw SQL is
passed through `verify_sql` with auto_limit on, and only the verified output
is handed to the execution backend; a gate error is surfaced and nothing is
executed. -/
def loggingRun (exec : String → List (List String)) (sql : String) :
    Except SqlError (List (List String)) :=
  match verify_sql sql true with
  | .error e => .error e
  | .ok safe => .ok (exec safe)

/-- One row of the schema_embeddings relation of embedder.py.  The db_name
field is an Option because the CDC worker inserts rows without a db_name
value, although the DDL of _ensure_pgvector_table declares the column NOT
NULL; the embedding vector is modelled as a list of integers, its numeric
content playing no role in the claims. -/
structure EmbeddingRecord where
  dbName : Option String
  schemaName : String
  tableName : String
  vec : List Int
deriving DecidableEq

/-- The schema_embeddings relation contents. -/
abbrev Store := List EmbeddingRecord

/-- Embeds the db_name sanitization of DBEmbedder.__init__ (embedder.py line
54): raw.replace with dash to underscore, then raw.replace with dot to
underscore; a Python str.replace with a one-character pattern is exactly a
character map, applied once per replace call. -/
def sanitizeDbName (raw : String) : String :=
  String.mk ((raw.data.map fun c => if c == '-' then '_' else c).map
    fun c => if c == '.' then '_' else c)

/-- The rows of schema_embeddings belonging to one tenant database, as
selected by the WHERE db_name filters used throughout embedder.py. -/
def tenantRecords (st : Store) (db : String) : Store :=
  st.filter fun r => r.dbName == some db

/-- A SQL double precision value: NaN, a signed infinity, or a finite value.
Finite values are modelled as integers, which is enough for every claim and
keeps all definitions kernel-computable. -/
inductive EFloat where
  | nan
  | inf
  | ninf
  | fin (q : Int)
deriving DecidableEq

/-- The similarity 1 - d computed in the SELECT of
_similarity_search_async from the cosine distance d. -/
def oneSub : EFloat → EFloat
  | .nan => .nan
  | .inf => .ninf
  | .ninf => .inf
  | .fin q => .fin (1 - q)

/-- Embeds _safe_score of embedder.py lines 24-30: NaN and infinite scores
become None, every finite score is returned as it is. -/
def safeScore : EFloat → Option Int
  | .fin q => some q
  | _ => none

/-- Ascending order on SQL floats as used by ORDER BY on a distance
expression (NaN greatest). -/
def efLeB : EFloat → EFloat → Bool
  | .ninf, _ => true
  | _, .ninf => false
  | .fin a, .fin b => decide (a ≤ b)
  | .fin _, _ => true
  | _, .fin _ => false
  | .nan, .nan => true
  | .inf, .nan => true
  | .nan, .inf => false
  | .inf, .inf => true

/-- One row returned by the similarity SELECT of _similarity_search_async
after passing the score through _safe_score. -/
structure SearchRow where
  schemaName : String
  tableName : String
  score : Option Int
deriving DecidableEq

/-- Embeds the similarity SELECT of embedder.py lines 344-358: restrict the
schema_embeddings rows to the tenant, order by cosine distance to the query
vector, take the first k, and report 1 - distance through _safe_score. -/
def searchRowsQ (dist : List Int → List Int → EFloat) (st : Store) (db : String)
    (qv : List Int) (k : Nat) : List SearchRow :=
  ((((tenantRecords st db).insertionSort fun a b =>
      efLeB (dist a.vec qv) (dist b.vec qv) = true).take k).map
    fun r => ⟨r.schemaName, r.tableName, safeScore (oneSub (dist r.vec qv))⟩)

/-- One entry of the list similarity_search returns to its caller. -/
structure SearchHit where
  table : String
  score : Option Int
  text : String
deriving DecidableEq

/-- Embeds the result mapping of _similarity_search_async lines 360-367:
qualified table name, safe score, and a description text. -/
def similaritySearchHits (dist : List Int → List Int → EFloat) (st : Store) (db : String)
    (qv : List Int) (k : Nat) : List SearchHit :=
  (searchRowsQ dist st db qv k).map fun r =>
    ⟨r.schemaName ++ "." ++ r.tableName, r.score,
      "Table " ++ r.schemaName ++ "." ++ r.tableName⟩

/-- The error surfaced by a failed database search call.  The repository
defines no EmbeddingBackendError type. -/
structure BackendError where
  msg : String
deriving DecidableEq

/-- Outcome of one attempt to run the similarity SELECT. -/
inductive SearchOutcome where
  | ok (hits : List SearchHit)
  | fail (e : BackendError)
deriving DecidableEq

/-- The environment of a similarity_search invocation: attempt n is the
outcome the backend would produce for the n-th search attempt. -/
structure SearchBackend where
  attempt : Nat → SearchOutcome

/-- Trace of one similarity_search invocation: number of search attempts
made, number of forced rebuilds performed, and the final outcome. -/
structure SearchTrace where
  attempts : Nat
  rebuilds : Nat
  result : SearchOutcome
deriving DecidableEq

/-- Embeds the control flow of DBEmbedder.similarity_search (embedder.py
lines 315-370): the async search body runs exactly once, with no exception
handler around it and no rebuild, so any failure propagates to the caller
unchanged. -/
def similaritySearchCall (b : SearchBackend) : SearchTrace :=
  { attempts := 1, rebuilds := 0, result := b.attempt 0 }

/-- The behaviour claim C4 describes (spec section 4.2): on failure, force
rebuild once and retry once, propagating an error only if the retry also
fails. -/
def selfHealingSearch (b : SearchBackend) : SearchTrace :=
  match b.attempt 0 with
  | .ok hits => { attempts := 1, rebuilds := 0, result := .ok hits }
  | .fail _ =>
    match b.attempt 1 with
    | .ok hits => { attempts := 2, rebuilds := 1, result := .ok hits }
    | .fail e => { attempts := 2, rebuilds := 1, result := .fail e }

/-- Description of one table to embed: schema, table and embedding vector,
as produced by grouping get_metadata rows in _build_embeddings. -/
abbrev TableVec := String × String × List Int

/-- Embeds _build_embeddings (embedder.py lines 272-313): with force, first
delete every row of the tenant, then insert one row per table keyed with the
tenant db_name. -/
def buildEmbeddings (st : Store) (db : String) (force : Bool)
    (tables : List TableVec) : Store :=
  (if force then st.filter fun r => !(r.dbName == some db) else st) ++
    tables.map fun tv => ⟨some db, tv.1, tv.2.1, tv.2.2⟩

/-- Embeds _ensure_store_async (embedder.py lines 247-270): if the tenant
already has rows and force is not set, leave the store unchanged, otherwise
build. -/
def ensureStore (st : Store) (db : String) (force : Bool)
    (tables : List TableVec) : Store :=
  if (tenantRecords st db).length > 0 && !force then st
  else buildEmbeddings st db force tables

/-- Embeds DBEmbedder.rebuild (embedder.py lines 372-374): ensure_store with
force. -/
def rebuildStore (st : Store) (db : String) (tables : List TableVec) : Store :=
  ensureStore st db true tables

/-- The successive store states produced by the row-by-row INSERTs of
_build_embeddings after the DELETE: each conn.execute commits on its own (no
enclosing transaction in embedder.py), so each state is observable by a
concurrent reader. -/
def insertTrace (db : String) (acc : Store) : List TableVec → List Store
  | [] => []
  | tv :: rest =>
    (acc ++ [⟨some db, tv.1, tv.2.1, tv.2.2⟩]) ::
      insertTrace db (acc ++ [⟨some db, tv.1, tv.2.1, tv.2.2⟩]) rest

/-- All store states observable while rebuild runs: the initial store, the
state right after the DELETE of the tenant rows, and the state after each
INSERT. -/
def rebuildTrace (st : Store) (db : String) (tables : List TableVec) : List Store :=
  st :: (st.filter fun r => !(r.dbName == some db)) ::
    insertTrace db (st.filter fun r => !(r.dbName == some db)) tables

/-- Embeds refresh_embeddings of listen_and_refresh.py lines 392-414: delete
every row matching the schema and table (the DELETE carries no db_name
filter), then insert one row per vector providing only schema, table and
embedding (the INSERT carries no db_name value). -/
def refresh_embeddings (st : Store) (s t : String) (vectors : List (List Int)) : Store :=
  (st.filter fun r => !(r.schemaName == s && r.tableName == t)) ++
    vectors.map fun v => ⟨none, s, t, v⟩

/-- The integrity declared for schema_embeddings by _ensure_pgvector_table
(embedder.py lines 98-107): db_name NOT NULL and a uniqueness constraint on
(db_name, schema, table). -/
abbrev wellKeyed (st : Store) : Prop :=
  (∀ r ∈ st, r.dbName ≠ none) ∧
    (st.map fun r => (r.dbName, r.schemaName, r.tableName)).Nodup

/-- A decoded schema change notification as read by handle_notification. -/
structure ChangeEvent where
  db : String
  schemaName : String
  tableName : String
  command : String
deriving DecidableEq

/-- One column row of the current catalog read used by the worker
(get_metadata_async). -/
structure CatalogRow where
  schemaName : String
  tableName : String
  columnName : String
  dataType : String
deriving DecidableEq

/-- Embeds remove_table_embeddings of listen_and_refresh.py lines 417-424:
delete every row of the dropped table. -/
def remove_table_embeddings (st : Store) (s t : String) : Store :=
  st.filter fun r => !(r.schemaName == s && r.tableName == t)

/-- Embeds the store mutation of handle_notification (listen_and_refresh.py
lines 427-501): read the current catalog rows of the affected table; on DROP
TABLE, or when the catalog read returns no columns, remove the table
embeddings; otherwise refresh them with one vector per column. -/
def handle_notification (embed : CatalogRow → List Int) (catalog : List CatalogRow)
    (st : Store) (ev : ChangeEvent) : Store :=
  let rows := catalog.filter fun r =>
    r.schemaName == ev.schemaName && r.tableName == ev.tableName
  if ev.command == "DROP TABLE" || rows.isEmpty then
    remove_table_embeddings st ev.schemaName ev.tableName
  else
    refresh_embeddings st ev.schemaName ev.tableName (rows.map embed)

/-- One SSE client queue: identifier, optional capacity bound and buffered
events.  add_sse_client constructs queue.Queue() with no maxsize, so the
capacity is none, meaning unbounded. -/
structure SseQueue where
  qid : Nat
  capacity : Option Nat
  buf : List String
deriving DecidableEq

/-- Embeds add_sse_client (listen_and_refresh.py lines 41-46): append a new
queue.Queue() with no maxsize to the subscriber list and return it. -/
def add_sse_client (qs : List SseQueue) (qid : Nat) : List SseQueue × SseQueue :=
  (qs ++ [⟨qid, none, []⟩], ⟨qid, none, []⟩)

/-- put_nowait raises queue.Full exactly when the queue has a capacity bound
that its buffer has reached. -/
def queueFull (q : SseQueue) : Bool :=
  match q.capacity with
  | none => false
  | some c => decide (c ≤ q.buf.length)

/-- Embeds broadcast_to_sse_clients (listen_and_refresh.py lines 54-68): try
put_nowait on every subscriber queue; queues raising queue.Full are collected
and removed from the active set, every other queue receives the event. -/
def broadcast_to_sse_clients (qs : List SseQueue) (e : String) : List SseQueue :=
  qs.filterMap fun q =>
    if queueFull q then none else some { q with buf := q.buf ++ [e] }

/-- One joined row of the catalog query of get_metadata (introspector.py):
namespace name, relation name, attribute name, formatted type, relation kind
and the dropped flag. -/
structure PgAttRow where
  nspname : String
  relname : String
  attname : String
  dataType : String
  relkind : Char
  attisdropped : Bool
deriving DecidableEq

/-- A schema column record produced by get_metadata, restricted to the
fields the claims speak about. -/
structure SchemaColumnRecord where
  schemaName : String
  tableName : String
  columnName : String
  dataType : String
deriving DecidableEq

/-- Embeds the row filtering of get_metadata (introspector.py lines 83-91):
keep ordinary and partitioned tables (relkind r or p), exclude the
pg_catalog and information_schema namespaces and dropped attributes.  No
predicate excludes vector-typed columns. -/
def get_metadata (cat : List PgAttRow) : List SchemaColumnRecord :=
  (cat.filter fun a =>
      (a.relkind == 'r' || a.relkind == 'p') &&
      !(a.nspname == "pg_catalog" || a.nspname == "information_schema") &&
      !a.attisdropped).map
    fun a => ⟨a.nspname, a.relname, a.attname, a.dataType⟩

theorem scanCore_append (xs ys : List Char) : ∀ σ : ScanState,
    scanCore σ (xs ++ ys) =
      ((scanCore σ xs).1 ++ (scanCore (scanCore σ xs).2 ys).1,
        (scanCore (scanCore σ xs).2 ys).2) := by
  induction xs with
  | nil => intro σ; simp [scanCore]
  | cons c rest ih => intro σ; simp [scanCore, ih, List.append_assoc]

theorem scanCore_limitSuffix (σ : ScanState) (h : canAppend σ = true) :
    scanCore σ limitSuffix.data =
      (flushT σ ++ TChar.top nlChar :: "LIMIT 1000".data.map TChar.top, .normal) := by
  cases σ <;> revert h <;> decide

theorem data_append (x y : String) : (x ++ y).data = x.data ++ y.data := rfl

theorem topChars_append_limit (x : String) (h : canAppend (scanFinal x) = true) :
    topChars (x ++ limitSuffix) =
      topChars x ++ TChar.top nlChar :: "LIMIT 1000".data.map TChar.top := by
  have hσ := scanCore_limitSuffix _ h
  unfold scanFinal at hσ
  unfold topChars
  rw [data_append, scanCore_append, hσ]
  simp [flushT, List.append_assoc]

theorem scanFinal_append_limit (x : String) (h : canAppend (scanFinal x) = true) :
    scanFinal (x ++ limitSuffix) = .normal := by
  have hσ := scanCore_limitSuffix _ h
  unfold scanFinal at hσ
  unfold scanFinal
  rw [data_append, scanCore_append, hσ]

theorem stripTrailer_append_limit (x : String) :
    stripTrailer (x ++ limitSuffix) = x ++ limitSuffix := by
  have h1 : (x ++ limitSuffix).data.reverse =
      '0' :: (('0' :: '0' :: '1' :: ' ' :: 'T' :: 'I' :: 'M' :: 'I' :: 'L' :: nlChar :: []) ++
        x.data.reverse) := by
    rw [data_append, List.reverse_append]
    rfl
  unfold stripTrailer
  rw [h1, List.dropWhile_cons_of_neg (by decide), ← h1, List.reverse_reverse]

theorem wordsAux_sep_append (s : TChar) (hsep : sepT s = true) (ys : List TChar) :
    ∀ (ts : List TChar) (acc : List Char),
      wordsAux (ts ++ s :: ys) acc =
        wordsAux ts acc ++ wordsAux ys [] := by
  intro ts
  induction ts with
  | nil =>
    intro acc
    by_cases h : acc.isEmpty <;> simp [wordsAux, hsep, h]
  | cons t rest ih =>
    intro acc
    by_cases hs : sepT t = true
    · by_cases h : acc.isEmpty <;> simp [wordsAux, hs, h, ih]
    · cases t with
      | hidden => simp [sepT] at hs
      | top c =>
        simp only [List.cons_append, wordsAux, hs]
        simp only [Bool.false_eq_true, if_false]
        exact ih _

theorem wordsOf_append_limit (ts : List TChar) :
    wordsOf (ts ++ TChar.top nlChar :: "LIMIT 1000".data.map TChar.top) =
      wordsOf ts ++ ["LIMIT", "1000"] := by
  unfold wordsOf
  rw [wordsAux_sep_append (TChar.top nlChar) (by decide)]
  have h : wordsAux ("LIMIT 1000".data.map TChar.top) [] = ["LIMIT", "1000"] := by decide
  rw [h]

theorem multiStatement_append (ts us : List TChar) :
    multiStatement (ts ++ us) = (multiStatement ts || multiStatement us) := by
  simp [multiStatement]

theorem mutatingCheck_append_limit (ws : List String) :
    mutatingCheck (ws ++ ["LIMIT", "1000"]) = mutatingCheck ws := by
  cases ws with
  | nil => decide
  | cons w rest =>
    have h : (["LIMIT", "1000"] : List String).any mutatingVerbs.contains = false := by decide
    simp [mutatingCheck, List.any_append, h]

theorem anyLimit_append_limit (ws : List String) :
    (ws ++ ["LIMIT", "1000"]).any (· == "LIMIT") = true := by
  simp [List.any_append]

/-- Claim C1 (amended): whenever the first top-level keyword of the statement
(outside string literals and comments) is a mutating verb, `verify_sql`
rejects the statement with an error; when the input is in addition a single
top-level statement, the error is UnsafeSQLError; and in all cases the
statement is never handed to the execution backend by
LoggingSQLDatabase.run. -/
theorem verify_sql_mutating_rejected (sql : String) (w : String)
    (hw : (wordsOf (topChars (stripTrailer sql))).head? = some w)
    (hmem : mutatingVerbs.contains w = true) :
    (∃ e, verify_sql sql true = .error e) ∧
    (multiStatement (topChars (stripTrailer sql)) = false →
      verify_sql sql true = .error .mutating) ∧
    (∀ exec, ∃ e, loggingRun exec sql = .error e) := by
  have hcheck : mutatingCheck (wordsOf (topChars (stripTrailer sql))) = true := by
    cases hws : wordsOf (topChars (stripTrailer sql)) with
    | nil => rw [hws] at hw; simp at hw
    | cons w0 rest =>
      rw [hws] at hw
      simp at hw
      subst hw
      have hmem2 : w0 ∈ mutatingVerbs := by simpa using hmem
      simp [mutatingCheck, hmem2]
  by_cases hm : multiStatement (topChars (stripTrailer sql)) = true
  · have hv : verify_sql sql true = .error .multi := by
      unfold verify_sql
      simp [hm]
    refine ⟨⟨.multi, hv⟩, ?_, ?_⟩
    · intro hfalse; rw [hm] at hfalse; cases hfalse
    · intro exec; exact ⟨.multi, by unfold loggingRun; rw [hv]⟩
  · have hm0 : multiStatement (topChars (stripTrailer sql)) = false := by
      cases h : multiStatement (topChars (stripTrailer sql))
      · rfl
      · exact absurd h hm
    have hv : verify_sql sql true = .error .mutating := by
      unfold verify_sql
      simp [hm0, hcheck]
    refine ⟨⟨.mutating, hv⟩, fun _ => hv, ?_⟩
    intro exec; exact ⟨.mutating, by unfold loggingRun; rw [hv]⟩

/-- Claim C1 counterexample: this input has first top-level keyword DELETE, a
mutating verb, yet the gate rejects it with MultipleStatementsError rather
than UnsafeSQLError, because the multiple-statement check (section 4.4 rule
2) runs before the mutating-verb check (rule 3). -/
theorem verify_sql_mutating_counterexample :
    (wordsOf (topChars (stripTrailer "DELETE FROM a; SELECT 1"))).head? = some "DELETE" ∧
    mutatingVerbs.contains "DELETE" = true ∧
    verify_sql "DELETE FROM a; SELECT 1" true = .error .multi ∧
    verify_sql "DELETE FROM a; SELECT 1" true ≠ .error .mutating := by decide

/-- Claim C1 witness: the gate rejects the single mutating statement of
test_verify_sql_rejects_mutating with UnsafeSQLError and never executes it. -/
theorem verify_sql_mutating_witness :
    verify_sql "DELETE FROM users" true = .error .mutating ∧
    loggingRun (fun _ => [["row"]]) "DELETE FROM users" = .error .mutating := by
  have h := verify_sql_mutating_rejected "DELETE FROM users" "DELETE" (by decide) (by decide)
  have hv := h.2.1 (by decide)
  exact ⟨hv, by unfold loggingRun; rw [hv]⟩

/-- Mirrors test_verify_sql_rejects_multiple_statements: two top-level
statements are rejected with MultipleStatementsError. -/
theorem verify_sql_multi_test :
    verify_sql "SELECT 1; DROP TABLE users" true = .error .multi := by decide

/-- Claim C2: for every single read-only SQL statement, the gate with
auto_limit appends the LIMIT 1000 row cap (on its own line) when no
top-level LIMIT is present and the statement is lexically closed, returns
the input unchanged when a LIMIT is present, and is idempotent on its own
output with no further condition: whenever verify_sql returns a sanitized
statement, re-verifying that statement returns it unchanged. -/
theorem verify_sql_autolimit_idem (sql : String)
    (hm : multiStatement (topChars (stripTrailer sql)) = false)
    (hk : mutatingCheck (wordsOf (topChars (stripTrailer sql))) = false) :
    ((wordsOf (topChars (stripTrailer sql))).any (· == "LIMIT") = false →
        canAppend (scanFinal (stripTrailer sql)) = true →
        verify_sql sql true = .ok (stripTrailer sql ++ limitSuffix)) ∧
    ((wordsOf (topChars (stripTrailer sql))).any (· == "LIMIT") = true →
        verify_sql sql true = .ok sql) ∧
    (∀ res, verify_sql sql true = .ok res → verify_sql res true = .ok res) := by
  refine ⟨?_, ?_, ?_⟩
  · intro hl hc; unfold verify_sql; simp [hm, hk, hl, hc]
  · intro hl; unfold verify_sql; simp [hm, hk, hl]
  · intro res hres
    by_cases hl : (wordsOf (topChars (stripTrailer sql))).any (· == "LIMIT") = true
    · have hv : verify_sql sql true = .ok sql := by
        unfold verify_sql; simp [hm, hk, hl]
      rw [hv] at hres
      injection hres with h
      subst h
      exact hv
    · have hl0 : (wordsOf (topChars (stripTrailer sql))).any (· == "LIMIT") = false := by
        cases h : (wordsOf (topChars (stripTrailer sql))).any (· == "LIMIT")
        · rfl
        · exact absurd h hl
      by_cases hc : canAppend (scanFinal (stripTrailer sql)) = true
      · have hv : verify_sql sql true = .ok (stripTrailer sql ++ limitSuffix) := by
          unfold verify_sql; simp [hm, hk, hl0, hc]
        rw [hv] at hres
        injection hres with h
        subst h
        set core := stripTrailer sql with hcore
        have hstrip := stripTrailer_append_limit core
        have htop := topChars_append_limit core hc
        have hmulti2 : multiStatement (topChars (core ++ limitSuffix)) = false := by
          rw [htop, multiStatement_append, hm]
          have hlim : multiStatement
              (TChar.top nlChar :: "LIMIT 1000".data.map TChar.top) = false := by decide
          rw [hlim]
          rfl
        have hwords2 : wordsOf (topChars (core ++ limitSuffix)) =
            wordsOf (topChars core) ++ ["LIMIT", "1000"] := by
          rw [htop, wordsOf_append_limit]
        unfold verify_sql
        simp only [hstrip, hmulti2, hwords2, mutatingCheck_append_limit, hk,
          anyLimit_append_limit, Bool.false_eq_true, if_false, Bool.not_true,
          Bool.and_false, Bool.false_and]
      · have hcf : canAppend (scanFinal (stripTrailer sql)) = false := by
          cases h : canAppend (scanFinal (stripTrailer sql))
          · rfl
          · exact absurd h hc
        have hv : verify_sql sql true = .ok sql := by
          unfold verify_sql; simp [hm, hk, hl0, hcf]
        rw [hv] at hres
        injection hres with h
        subst h
        exact hv

/-- Claim C2 witness: the gate appends the row cap to the statement of
test_verify_sql_appends_limit and the result re-verifies unchanged; a
statement that already carries a LIMIT is returned unchanged; and a
statement ending in a line comment receives the cap on a fresh line and
also re-verifies unchanged. -/
theorem verify_sql_autolimit_witness :
    verify_sql "SELECT * FROM users" true = .ok ("SELECT * FROM users" ++ limitSuffix) ∧
    verify_sql ("SELECT * FROM users" ++ limitSuffix) true =
      .ok ("SELECT * FROM users" ++ limitSuffix) ∧
    verify_sql "SELECT * FROM users LIMIT 10" true = .ok "SELECT * FROM users LIMIT 10" ∧
    verify_sql "SELECT 1 --c" true = .ok ("SELECT 1 --c" ++ limitSuffix) ∧
    verify_sql ("SELECT 1 --c" ++ limitSuffix) true = .ok ("SELECT 1 --c" ++ limitSuffix) := by
  have h := verify_sql_autolimit_idem "SELECT * FROM users" (by decide) (by decide)
  have h1 := h.1 (by decide) (by decide)
  have hs : stripTrailer "SELECT * FROM users" = "SELECT * FROM users" := by decide
  rw [hs] at h1
  have h3 := (verify_sql_autolimit_idem "SELECT * FROM users LIMIT 10"
    (by decide) (by decide)).2.1 (by decide)
  have g := verify_sql_autolimit_idem "SELECT 1 --c" (by decide) (by decide)
  have g1 := g.1 (by decide) (by decide)
  have gs : stripTrailer "SELECT 1 --c" = "SELECT 1 --c" := by decide
  rw [gs] at g1
  exact ⟨h1, h.2.2 _ h1, h3, g1, g.2.2 _ g1⟩

/-- Claim C3 counterexample: with an underlying cosine distance of 2 (the
cosine distance of opposed normalized vectors) the returned score is -1, a
finite number outside the closed interval from 0 to 1, so scores are not
normalized into that interval. -/
theorem safeScore_interval_counterexample :
    (similaritySearchHits (fun _ _ => .fin 2)
        [⟨some "shop_db", "public", "users", [1]⟩] "shop_db" [1] 5).map SearchHit.score =
      [some (-1 : Int)] ∧
    ¬((0 : Int) ≤ -1) := by
  constructor
  · decide
  · decide

/-- Claim C3 (amended): every score returned by similarity_search is the
image under _safe_score of the similarity 1 - d computed from the distance d
of some stored record of the tenant; _safe_score maps every non-finite value
to None and every finite value to itself, so a non-finite number is never
returned to the caller, but finite scores are not clamped to the interval
from 0 to 1. -/
theorem safeScore_finite_or_none (dist : List Int → List Int → EFloat) (st : Store)
    (db : String) (qv : List Int) (k : Nat) (hit : SearchHit)
    (hmem : hit ∈ similaritySearchHits dist st db qv k) :
    (∃ r, r ∈ tenantRecords st db ∧ hit.score = safeScore (oneSub (dist r.vec qv))) ∧
    (∀ e : EFloat, (∀ q : Int, e ≠ .fin q) → safeScore e = none) ∧
    (∀ q : Int, safeScore (.fin q) = some q) := by
  refine ⟨?_, ?_, fun q => rfl⟩
  · unfold similaritySearchHits at hmem
    obtain ⟨row, hrow, hmap⟩ := List.mem_map.mp hmem
    unfold searchRowsQ at hrow
    obtain ⟨r, hr, hrmap⟩ := List.mem_map.mp hrow
    have hr2 := List.take_subset _ _ hr
    have hr3 : r ∈ tenantRecords st db :=
      (List.perm_insertionSort _ _).mem_iff.mp hr2
    refine ⟨r, hr3, ?_⟩
    rw [← hmap, ← hrmap]
  · intro e he
    cases e with
    | nan => rfl
    | inf => rfl
    | ninf => rfl
    | fin q => exact absurd rfl (he q)

/-- Claim C3 witness: the out-of-interval hit of the counterexample indeed
originates from a stored record of the tenant through _safe_score. -/
theorem safeScore_finite_or_none_witness :
    ∃ r, r ∈ tenantRecords [⟨some "shop_db", "public", "users", [1]⟩] "shop_db" ∧
      (SearchHit.mk "public.users" (some (-1 : Int)) "Table public.users").score =
        safeScore (oneSub (EFloat.fin 2)) :=
  (safeScore_finite_or_none (fun _ _ => .fin 2)
    [⟨some "shop_db", "public", "users", [1]⟩] "shop_db" [1] 5
    ⟨"public.users", some (-1 : Int), "Table public.users"⟩ (by decide)).1

/-- Claim C4 counterexample: with a backend whose first search attempt fails
and whose retry would succeed, similarity_search performs no rebuild and no
retry and surfaces the first failure, while the claimed self-healing
behaviour would rebuild once, retry once and succeed. -/
theorem similaritySearch_no_selfheal_counterexample :
    similaritySearchCall ⟨fun n => if n = 0 then .fail ⟨"corrupt index"⟩ else .ok []⟩ =
      { attempts := 1, rebuilds := 0, result := .fail ⟨"corrupt index"⟩ } ∧
    selfHealingSearch ⟨fun n => if n = 0 then .fail ⟨"corrupt index"⟩ else .ok []⟩ =
      { attempts := 2, rebuilds := 1, result := .ok [] } :=
  ⟨rfl, rfl⟩

/-- Claim C4 (amended): similarity_search makes exactly one search attempt,
performs no rebuild, and returns exactly the outcome of that attempt, so a
failure propagates to the caller without any self-healing retry and without
being converted to another error type. -/
theorem similaritySearch_single_attempt (b : SearchBackend) :
    (similaritySearchCall b).attempts = 1 ∧
    (similaritySearchCall b).rebuilds = 0 ∧
    (similaritySearchCall b).result = b.attempt 0 :=
  ⟨rfl, rfl, rfl⟩

/-- Claim C5 (code bug): refreshing public.users with two column vectors in
a store holding that table for two tenants deletes the rows of both tenants
and inserts two rows carrying no tenant key, breaking the NOT NULL and
uniqueness integrity that _ensure_pgvector_table declares for
schema_embeddings; the build path of the embedder itself respects that
integrity. -/
theorem refresh_embeddings_drops_tenant_key :
    refresh_embeddings
        [⟨some "shop_db", "public", "users", [1]⟩, ⟨some "other_db", "public", "users", [2]⟩]
        "public" "users" [[3], [4]] =
      [⟨none, "public", "users", [3]⟩, ⟨none, "public", "users", [4]⟩] ∧
    ¬ wellKeyed (refresh_embeddings
        [⟨some "shop_db", "public", "users", [1]⟩, ⟨some "other_db", "public", "users", [2]⟩]
        "public" "users" [[3], [4]]) ∧
    (⟨some "other_db", "public", "users", [2]⟩ : EmbeddingRecord) ∉
      refresh_embeddings
        [⟨some "shop_db", "public", "users", [1]⟩, ⟨some "other_db", "public", "users", [2]⟩]
        "public" "users" [[3], [4]] ∧
    wellKeyed (buildEmbeddings [] "shop_db" true
        [("public", "users", [1]), ("public", "orders", [2])]) := by
  refine ⟨by decide, by decide, by decide, by decide⟩

/-- Claim C6: handling a DROP TABLE notification, or one whose catalog read
returns zero columns, deletes every EmbeddingRecord of that table, and a
similarity search over the resulting store never returns a row of that
table, for any tenant, distance, query vector and k. -/
theorem handle_drop_removes_table (embed : CatalogRow → List Int)
    (catalog : List CatalogRow) (st : Store) (ev : ChangeEvent)
    (h : ev.command = "DROP TABLE" ∨
      (catalog.filter fun r =>
        r.schemaName == ev.schemaName && r.tableName == ev.tableName).isEmpty = true) :
    handle_notification embed catalog st ev =
      remove_table_embeddings st ev.schemaName ev.tableName ∧
    (∀ r ∈ handle_notification embed catalog st ev,
      ¬(r.schemaName = ev.schemaName ∧ r.tableName = ev.tableName)) ∧
    (∀ dist db qv k row,
      row ∈ searchRowsQ dist (handle_notification embed catalog st ev) db qv k →
      ¬(row.schemaName = ev.schemaName ∧ row.tableName = ev.tableName)) := by
  have hcond : (ev.command == "DROP TABLE" ||
      (catalog.filter fun r =>
        r.schemaName == ev.schemaName && r.tableName == ev.tableName).isEmpty) = true := by
    rcases h with h | h
    · simp [h]
    · simp [h]
  have heq : handle_notification embed catalog st ev =
      remove_table_embeddings st ev.schemaName ev.tableName := by
    unfold handle_notification
    simp [hcond]
  have hnot : ∀ r ∈ handle_notification embed catalog st ev,
      ¬(r.schemaName = ev.schemaName ∧ r.tableName = ev.tableName) := by
    intro r hr hcontra
    rw [heq] at hr
    unfold remove_table_embeddings at hr
    have hp := List.of_mem_filter hr
    obtain ⟨h1, h2⟩ := hcontra
    simp [h1, h2] at hp
  refine ⟨heq, hnot, ?_⟩
  intro dist db qv k row hrow
  unfold searchRowsQ at hrow
  obtain ⟨r, hr, hrmap⟩ := List.mem_map.mp hrow
  have hr2 := List.take_subset _ _ hr
  have hr3 : r ∈ tenantRecords (handle_notification embed catalog st ev) db :=
    (List.perm_insertionSort _ _).mem_iff.mp hr2
  have hr4 : r ∈ handle_notification embed catalog st ev :=
    List.mem_of_mem_filter hr3
  subst hrmap
  exact hnot r hr4

/-- Claim C6 witness: after a DROP TABLE notification for public.users the
record of that table is gone from a concrete store. -/
theorem handle_drop_removes_table_witness :
    ¬((⟨some "shop_db", "public", "users", [1]⟩ : EmbeddingRecord) ∈
      handle_notification (fun _ => [0]) []
        [⟨some "shop_db", "public", "users", [1]⟩, ⟨some "shop_db", "public", "orders", [2]⟩]
        ⟨"shop_db", "public", "users", "DROP TABLE"⟩) := by
  intro hmem
  exact (handle_drop_removes_table (fun _ => [0]) [] _ _ (Or.inl rfl)).2.1 _ hmem ⟨rfl, rfl⟩

/-- Claim C7 counterexample: the queue created by add_sse_client carries no
bound: its capacity is none, and even with a million buffered events a put
on it never reports the queue as full, so subscriber queues are not bounded. -/
theorem add_sse_client_unbounded_counterexample :
    ((add_sse_client [] 0).2.capacity = none) ∧
    queueFull ⟨0, none, List.replicate 1000000 "e"⟩ = false :=
  ⟨rfl, rfl⟩

/-- Claim C7 (amended): subscriber queues are created unbounded; broadcast
is a total function that never raises and never blocks, delivering the event
to exactly the subscribers whose queue is not full, in order, and removing
every full subscriber from the active set. -/
theorem broadcast_drops_full_delivers_rest (qs : List SseQueue) (e : String) :
    broadcast_to_sse_clients qs e =
      (qs.filter fun q => !queueFull q).map fun q => { q with buf := q.buf ++ [e] } := by
  induction qs with
  | nil => rfl
  | cons q rest ih =>
    by_cases h : queueFull q = true
    · simp [broadcast_to_sse_clients, List.filterMap_cons, List.filter_cons, h] at ih ⊢
      exact ih
    · simp [broadcast_to_sse_clients, List.filterMap_cons, List.filter_cons, h] at ih ⊢
      exact ih

/-- Claim C8 counterexample: a vector-typed column in a user schema (the
embedding column of the cache table itself) passes every filter of
get_metadata and is returned, so vector-typed columns are not excluded. -/
theorem get_metadata_returns_vector_column :
    get_metadata [⟨"public", "schema_embeddings", "embedding", "vector(1024)", 'r', false⟩] =
      [⟨"public", "schema_embeddings", "embedding", "vector(1024)"⟩] := by decide

/-- Claim C8 (amended): every record returned by get_metadata lies outside
the system schemas pg_catalog and information_schema; vector-typed columns
are not filtered out. -/
theorem get_metadata_excludes_system_schemas (cat : List PgAttRow)
    (rec : SchemaColumnRecord) (h : rec ∈ get_metadata cat) :
    rec.schemaName ≠ "pg_catalog" ∧ rec.schemaName ≠ "information_schema" := by
  unfold get_metadata at h
  obtain ⟨a, ha, hmap⟩ := List.mem_map.mp h
  have hp := List.of_mem_filter ha
  subst hmap
  simp only [Bool.and_eq_true] at hp
  have hb := hp.1.2
  constructor
  · intro hc
    have hc2 : a.nspname = "pg_catalog" := hc
    rw [hc2] at hb
    simp at hb
  · intro hc
    have hc2 : a.nspname = "information_schema" := hc
    rw [hc2] at hb
    simp at hb

/-- Claim C8 witness: the schema of the concrete returned record is not a
system schema. -/
theorem get_metadata_excludes_system_schemas_witness :
    (⟨"public", "schema_embeddings", "embedding", "vector(1024)"⟩ :
        SchemaColumnRecord).schemaName ≠ "pg_catalog" :=
  (get_metadata_excludes_system_schemas
    [⟨"public", "schema_embeddings", "embedding", "vector(1024)", 'r', false⟩]
    ⟨"public", "schema_embeddings", "embedding", "vector(1024)"⟩ (by decide)).1

theorem insertTrace_mem_final (db : String) :
    ∀ (tables : List TableVec) (acc : Store), tables ≠ [] →
      (acc ++ tables.map fun tv => (⟨some db, tv.1, tv.2.1, tv.2.2⟩ : EmbeddingRecord)) ∈
        insertTrace db acc tables := by
  intro tables
  induction tables with
  | nil => intro acc h; exact absurd rfl h
  | cons tv rest ih =>
    intro acc _
    cases hr : rest with
    | nil =>
      subst hr
      simp [insertTrace]
    | cons tv2 rest2 =>
      subst hr
      have hne : tv2 :: rest2 ≠ [] := List.cons_ne_nil _ _
      have h2 := ih (acc ++ [⟨some db, tv.1, tv.2.1, tv.2.2⟩]) hne
      rw [List.append_assoc] at h2
      exact List.mem_cons_of_mem _ h2

/-- Claim C9 (amended): rebuild mutates the live rows in place with no
enclosing transaction: the observable states are the pre-rebuild store, the
state right after the DELETE of the tenant rows, in which a concurrent
search of that tenant sees an empty index, and one state per INSERT, ending
in the post-rebuild store. -/
theorem rebuild_not_atomic (st : Store) (db : String) (tables : List TableVec) :
    (rebuildTrace st db tables).head? = some st ∧
    (rebuildTrace st db tables).get? 1 =
      some (st.filter fun r => !(r.dbName == some db)) ∧
    tenantRecords (st.filter fun r => !(r.dbName == some db)) db = [] ∧
    rebuildStore st db tables ∈ rebuildTrace st db tables := by
  refine ⟨rfl, rfl, ?_, ?_⟩
  · unfold tenantRecords
    rw [List.filter_filter]
    have : ∀ r : EmbeddingRecord,
        ((r.dbName == some db) && !(r.dbName == some db)) = false := by
      intro r; cases r.dbName == some db <;> rfl
    calc st.filter (fun r => (r.dbName == some db) && !(r.dbName == some db))
        = st.filter (fun _ => false) := by
          apply List.filter_congr
          intro r _
          exact this r
      _ = [] := List.filter_false st
  · unfold rebuildStore ensureStore buildEmbeddings rebuildTrace
    cases htab : tables with
    | nil =>
      simp
    | cons tv rest =>
      right; right
      have := insertTrace_mem_final db (tv :: rest)
        (st.filter fun r => !(r.dbName == some db)) (List.cons_ne_nil _ _)
      simpa using this

/-- Claim C9 counterexample: rebuilding a tenant with two stored tables
exposes an intermediate state, right after the DELETE, in which a concurrent
similarity search of that tenant sees an empty index, which is neither the
complete pre-rebuild index nor the complete post-rebuild index. -/
theorem rebuild_observable_empty_counterexample :
    (rebuildTrace
        [⟨some "shop_db", "public", "orders", [1]⟩,
          ⟨some "shop_db", "public", "customers", [2]⟩]
        "shop_db" [("public", "orders", [3]), ("public", "customers", [4])]).get? 1 =
      some [] ∧
    tenantRecords [⟨some "shop_db", "public", "orders", [1]⟩,
        ⟨some "shop_db", "public", "customers", [2]⟩] "shop_db" ≠ [] ∧
    tenantRecords (rebuildStore [⟨some "shop_db", "public", "orders", [1]⟩,
        ⟨some "shop_db", "public", "customers", [2]⟩] "shop_db"
        [("public", "orders", [3]), ("public", "customers", [4])]) "shop_db" ≠ [] := by
  refine ⟨by decide, by decide, by decide⟩

/-- Claim C10: two database names that agree after replacing every dash and
every dot with an underscore produce the same internal db_name key, so the
tenant row set, the similarity search, ensure_store and rebuild all operate
on the same records for both names rather than on isolated per-tenant
indexes. -/
theorem sanitize_collision_shares_store (a b : String) (_hne : a ≠ b)
    (h : sanitizeDbName a = sanitizeDbName b) :
    (∀ st : Store, tenantRecords st (sanitizeDbName a) = tenantRecords st (sanitizeDbName b)) ∧
    (∀ dist st qv k, searchRowsQ dist st (sanitizeDbName a) qv k =
      searchRowsQ dist st (sanitizeDbName b) qv k) ∧
    (∀ st force tables, ensureStore st (sanitizeDbName a) force tables =
      ensureStore st (sanitizeDbName b) force tables) ∧
    (∀ st tables, rebuildStore st (sanitizeDbName a) tables =
      rebuildStore st (sanitizeDbName b) tables) := by
  rw [h]
  exact ⟨fun _ => rfl, fun _ _ _ _ => rfl, fun _ _ _ => rfl, fun _ _ => rfl⟩

/-- Claim C10 witness: shop-db and shop.db are distinct names with the same
sanitized key shop_db, and on a concrete store their tenant rows coincide. -/
theorem sanitize_collision_witness :
    sanitizeDbName "shop-db" = "shop_db" ∧
    sanitizeDbName "shop.db" = "shop_db" ∧
    tenantRecords [⟨some "shop_db", "public", "users", [1]⟩] (sanitizeDbName "shop-db") =
      tenantRecords [⟨some "shop_db", "public", "users", [1]⟩] (sanitizeDbName "shop.db") := by
  refine ⟨by decide, by decide, ?_⟩
  exact (sanitize_collision_shares_store "shop-db" "shop.db" (by decide) (by decide)).1 _

end SqlAgent
